import Mathlib

/-!
Shallow embedding of the uci crate: the UCI line-protocol parser
(src/search.rs) and the engine session logic (src/engine.rs).
Strings are tokenized as Rust's split_whitespace does; Rust integer
parsing (u32/u64/i32 FromStr) is modelled with explicit range checks;
a Rust panic (failed expect, out-of-bounds index) is modelled as the
none / panicked value of an explicit result type.
-/

deriving instance DecidableEq for Except

/-- Helper for splitWS: accumulates the current token (reversed). -/
def splitWSAux : List Char → List Char → List String
  | [], acc => if acc.isEmpty then [] else [String.mk acc.reverse]
  | c :: cs, acc =>
    if c.isWhitespace then
      if acc.isEmpty then splitWSAux cs [] else String.mk acc.reverse :: splitWSAux cs []
    else splitWSAux cs (c :: acc)

/-- Embeds Rust's str::split_whitespace: maximal runs of non-whitespace
characters, empty tokens dropped. -/
def splitWS (s : String) : List String :=
  splitWSAux s.toList []

/-- Numeric value of a digit string, most significant digit first. -/
def digitsVal (cs : List Char) : Nat :=
  cs.foldl (fun acc c => acc * 10 + (c.toNat - 48)) 0

/-- Parses a non-empty all-digit character list to a Nat. -/
def parseNatDigits (cs : List Char) : Option Nat :=
  if cs.isEmpty then none
  else if cs.all Char.isDigit then some (digitsVal cs) else none

/-- Embeds Rust unsigned-integer FromStr (u32 with bits = 32, u64 with
bits = 64): an optional leading plus sign, one or more ASCII digits, and
an in-range value; anything else is an error (none). -/
def parseUnsigned (bits : Nat) (s : String) : Option Nat :=
  match s.toList with
  | '+' :: cs =>
    match parseNatDigits cs with
    | none => none
    | some n => if n < 2 ^ bits then some n else none
  | cs =>
    match parseNatDigits cs with
    | none => none
    | some n => if n < 2 ^ bits then some n else none

/-- Embeds Rust signed-integer FromStr (i32 with bits = 32): an optional
leading sign, one or more ASCII digits, and an in-range value. -/
def parseSigned (bits : Nat) (s : String) : Option Int :=
  match s.toList with
  | '+' :: cs =>
    match parseNatDigits cs with
    | none => none
    | some n => if n < 2 ^ (bits - 1) then some (n : Int) else none
  | '-' :: cs =>
    match parseNatDigits cs with
    | none => none
    | some n => if n ≤ 2 ^ (bits - 1) then some (-(n : Int)) else none
  | cs =>
    match parseNatDigits cs with
    | none => none
    | some n => if n < 2 ^ (bits - 1) then some (n : Int) else none

/-- Embeds enum Score (src/search.rs lines 5-9). -/
inductive Score
  | Cp (v : Int)
  | Mate (v : Int)
deriving DecidableEq

/-- Embeds impl Default for Score (src/search.rs lines 11-15). -/
def Score.default : Score := Score.Cp 0

/-- Embeds struct Info (src/search.rs lines 17-40); u32/u64 fields become
Nat (their parses are range-checked in parseUnsigned). -/
structure Info where
  depth : Nat
  seldepth : Nat
  multipv : Nat
  score : Score
  wdl : Nat × Nat × Nat
  nodes : Nat
  nps : Nat
  hashfull : Nat
  tbhits : Nat
  time : Nat
  pv : List String
deriving DecidableEq

/-- Embeds the derived Default for Info: every numeric field 0, score
Cp 0, wdl (0,0,0), pv empty. -/
def Info.default : Info :=
  { depth := 0, seldepth := 0, multipv := 0, score := Score.default,
    wdl := (0, 0, 0), nodes := 0, nps := 0, hashfull := 0, tbhits := 0,
    time := 0, pv := [] }

/-- Embeds struct BestMove (src/search.rs lines 42-46): both fields are
plain strings, the ponder field is not optional. -/
structure BestMove where
  best : String
  ponder : String
deriving DecidableEq

/-- Embeds enum Search (src/search.rs lines 48-52). -/
inductive Search
  | Info (info : Info)
  | BestMove (bm : BestMove)
deriving DecidableEq

/-- Embeds the token-scanning while-let loop of parse_info
(src/search.rs lines 58-85), arm for arm of the Rust match on the
current token: each recognized keyword consumes and parses its value
token(s); a score tag other than cp/mate is only logged and the scan
continues; pv consumes every remaining token; an unrecognized token is
skipped. -/
def parseInfoTokens : List String → Info → Except String Info
  | [], info => Except.ok info
  | "depth" :: parts, info =>
    match parts with
    | [] => Except.error "no depth"
    | v :: rest =>
      match parseUnsigned 32 v with
      | none => Except.error "bad depth"
      | some n => parseInfoTokens rest { info with depth := n }
  | "seldepth" :: parts, info =>
    match parts with
    | [] => Except.error "no seldepth"
    | v :: rest =>
      match parseUnsigned 32 v with
      | none => Except.error "bad seldepth"
      | some n => parseInfoTokens rest { info with seldepth := n }
  | "multipv" :: parts, info =>
    match parts with
    | [] => Except.error "no multipv"
    | v :: rest =>
      match parseUnsigned 32 v with
      | none => Except.error "bad multipv"
      | some n => parseInfoTokens rest { info with multipv := n }
  | "score" :: parts, info =>
    match parts with
    | [] => Except.error "no score"
    | "cp" :: rest =>
      match rest with
      | [] => Except.error "no cp"
      | v :: rest2 =>
        match parseSigned 32 v with
        | none => Except.error "bad cp"
        | some n => parseInfoTokens rest2 { info with score := Score.Cp n }
    | "mate" :: rest =>
      match rest with
      | [] => Except.error "no mate"
      | v :: rest2 =>
        match parseSigned 32 v with
        | none => Except.error "bad mate"
        | some n => parseInfoTokens rest2 { info with score := Score.Mate n }
    | _ :: rest => parseInfoTokens rest info
  | "wdl" :: parts, info =>
    match parts with
    | [] => Except.error "no win"
    | v1 :: rest1 =>
      match parseUnsigned 64 v1 with
      | none => Except.error "bad win"
      | some a =>
        match rest1 with
        | [] => Except.error "no draw"
        | v2 :: rest2 =>
          match parseUnsigned 64 v2 with
          | none => Except.error "bad draw"
          | some b =>
            match rest2 with
            | [] => Except.error "no lose"
            | v3 :: rest3 =>
              match parseUnsigned 64 v3 with
              | none => Except.error "bad lose"
              | some c => parseInfoTokens rest3 { info with wdl := (a, b, c) }
  | "nodes" :: parts, info =>
    match parts with
    | [] => Except.error "no nodes"
    | v :: rest =>
      match parseUnsigned 64 v with
      | none => Except.error "bad nodes"
      | some n => parseInfoTokens rest { info with nodes := n }
  | "nps" :: parts, info =>
    match parts with
    | [] => Except.error "no nps"
    | v :: rest =>
      match parseUnsigned 64 v with
      | none => Except.error "bad nps"
      | some n => parseInfoTokens rest { info with nps := n }
  | "hashfull" :: parts, info =>
    match parts with
    | [] => Except.error "no hashfull"
    | v :: rest =>
      match parseUnsigned 32 v with
      | none => Except.error "bad hashfull"
      | some n => parseInfoTokens rest { info with hashfull := n }
  | "tbhits" :: parts, info =>
    match parts with
    | [] => Except.error "no tbhits"
    | v :: rest =>
      match parseUnsigned 64 v with
      | none => Except.error "bad tbhits"
      | some n => parseInfoTokens rest { info with tbhits := n }
  | "time" :: parts, info =>
    match parts with
    | [] => Except.error "no time"
    | v :: rest =>
      match parseUnsigned 64 v with
      | none => Except.error "bad time"
      | some n => parseInfoTokens rest { info with time := n }
  | "pv" :: parts, info => Except.ok { info with pv := info.pv ++ parts }
  | _ :: parts, info => parseInfoTokens parts info

/-- Embeds parse_info (src/search.rs lines 54-88): tokenizes the line and
scans it starting from the all-default Info record. -/
def parse_info (line : String) : Except String Info :=
  parseInfoTokens (splitWS line) Info.default

/-- Embeds the body of parse_bestmove (src/search.rs lines 98-104) on its
token list: the Rust code indexes parts[1] and parts[3] unconditionally,
so a list with fewer than four tokens panics, modelled as none. -/
def parseBestmoveTokens (parts : List String) : Option BestMove :=
  match parts[1]?, parts[3]? with
  | some b, some p => some { best := b, ponder := p }
  | _, _ => none

/-- Embeds parse_bestmove (src/search.rs lines 98-104). -/
def parse_bestmove (line : String) : Option BestMove :=
  parseBestmoveTokens (splitWS line)

/-- Expected decode of the first concrete test line of spec section 8. -/
def infoLineA : Info :=
  { depth := 12, seldepth := 18, multipv := 1, score := Score.Cp 34,
    wdl := (0, 0, 0), nodes := 100000, nps := 500000, hashfull := 10,
    tbhits := 0, time := 200, pv := ["e2e4", "e7e5"] }

/-- Expected decode of the second concrete test line of spec section 8. -/
def infoLineB : Info :=
  { depth := 5, seldepth := 0, multipv := 0, score := Score.Mate 3,
    wdl := (0, 0, 0), nodes := 10, nps := 10, hashfull := 1,
    tbhits := 0, time := 5, pv := [] }

/-- Prefix test on character lists, helper for startsWith. -/
def listPrefix : List Char → List Char → Bool
  | [], _ => true
  | _ :: _, [] => false
  | p :: ps, c :: cs => p = c && listPrefix ps cs

/-- Embeds Rust's str::starts_with on string literals. -/
def startsWith (s pre : String) : Bool :=
  listPrefix pre.toList s.toList

/-- Embeds enum State (src/engine.rs lines 22-26). -/
inductive State
  | Init
  | Ready
  | Search
deriving DecidableEq

/-- Embeds struct Go (src/engine.rs lines 120-125). -/
structure Go where
  position : Option String
  moves : List String
  depth : Nat
deriving DecidableEq

/-- Embeds Go::new (src/engine.rs lines 128-133): depth 10 over the
derived defaults (no position, no moves). -/
def Go.new : Go :=
  { position := none, moves := [], depth := 10 }

/-- Embeds Go::fen (src/engine.rs lines 135-138). -/
def Go.fen (g : Go) (p : String) : Go :=
  { g with position := some p }

/-- Embeds Go::moves (src/engine.rs lines 140-145). -/
def Go.moves' (g : Go) (ms : List String) : Go :=
  { g with moves := g.moves ++ ms }

/-- Embeds Go::depth (src/engine.rs lines 147-150). -/
def Go.depth' (g : Go) (d : Nat) : Go :=
  { g with depth := d }

/-- Embeds the position-command serialization in go (src/engine.rs lines
175-183): "position startpos" or "position fen {fen}", then " moves ..."
only when the move list is non-empty. -/
def positionCmd (g : Go) : String :=
  let base := match g.position with
    | none => "position" ++ " startpos"
    | some fen => "position" ++ " fen " ++ fen
  if g.moves.isEmpty then base
  else base ++ " moves " ++ " ".intercalate g.moves

/-- Embeds the two commands go sends before its read loop (src/engine.rs
lines 185-187): the position command, then "go depth {depth}". -/
def goCommands (g : Go) : List String :=
  [positionCmd g, "go depth " ++ toString g.depth]

/-- Termination status of the go read loop. -/
inductive GoStatus
  | ok
  | decodeError
  | panicked
  | closed
deriving DecidableEq

/-- Embeds the read loop of go (src/engine.rs lines 189-200) over the
sequence of lines the engine will produce: an "info depth"-prefixed line
is parsed (a parse error propagates out of go via the question-mark
operator, ending the loop); a "bestmove"-prefixed line is parsed (fewer
than four tokens panics), sent, and ends the loop; other lines are
skipped; an exhausted line source leaves recv pending forever or
panicking, status closed. Returns the events sent to the job's channel,
the unconsumed lines, and the termination status. -/
def goLoop : List String → List Search × List String × GoStatus
  | [] => ([], [], GoStatus.closed)
  | line :: rest =>
    if startsWith line "info depth" then
      match parse_info line with
      | Except.error _ => ([], rest, GoStatus.decodeError)
      | Except.ok i =>
        let r := goLoop rest
        (Search.Info i :: r.1, r.2.1, r.2.2)
    else if startsWith line "bestmove" then
      match parse_bestmove line with
      | none => ([], rest, GoStatus.panicked)
      | some bm => ([Search.BestMove bm], rest, GoStatus.ok)
    else goLoop rest

/-- Embeds sequential submission of several jobs (Go::execute,
src/engine.rs lines 152-161): each spawned go task awaits the shared
engine mutex, so the jobs' read loops run one after the other over the
engine's line stream; there is no state check and no rejection. Returns
the event stream each job's Searcher receives. -/
def runJobs : List Go → List String → List (List Search)
  | [], _ => []
  | _ :: js, lines =>
    let r := goLoop lines
    r.1 :: runJobs js r.2.1

/-- Embeds Searcher::next (src/engine.rs lines 169-171) on the job's
event stream: the next event if any, and the remaining stream. -/
def searcherNext : List Search → Option Search × List Search
  | [] => (none, [])
  | e :: es => (some e, es)

/-- Embeds Engine::uci (src/engine.rs lines 88-96) over the inbound
lines: discards lines until one starts with "uciok"; the state field is
not written. An exhausted line source leaves the loop waiting forever
(none). -/
def uciWait : List String → State → Option (State × List String)
  | [], _ => none
  | l :: rest, s => if startsWith l "uciok" then some (s, rest) else uciWait rest s

/-- Embeds Engine::isready (src/engine.rs lines 98-106) over the inbound
lines: discards lines until one equals "readyok", then sets state to
Ready — with no check that the uci handshake ever ran. -/
def isreadyWait : List String → State → Option (State × List String)
  | [], _ => none
  | l :: rest, s =>
    if l = "readyok" then some (State.Ready, rest) else isreadyWait rest s

/-- Embeds the state effect of Go::execute (src/engine.rs lines 152-161):
the method spawns the go task and returns the Searcher without touching
engine.state. -/
def executeState (s : State) : State := s

/-- Embeds the state effect of the go read loop (src/engine.rs line 197):
state is assigned Ready exactly in the bestmove branch, i.e. when the
loop terminates with status ok; otherwise the field keeps its value. -/
def goLoopState (s : State) (lines : List String) : State :=
  if (goLoop lines).2.2 = GoStatus.ok then State.Ready else s

/-- Outcome of Engine::recv (src/engine.rs lines 84-86): the tokio
channel recv yields some line or none when the channel is closed, and
the expect call turns none into a panic. -/
inductive RecvOutcome
  | line (s : String)
  | panicked
deriving DecidableEq

/-- Embeds Engine::recv (src/engine.rs lines 84-86). -/
def recvModel : Option String → RecvOutcome
  | some s => RecvOutcome.line s
  | none => RecvOutcome.panicked

/-- Outcome of Engine::send (src/engine.rs lines 80-82): the channel send
returns ok or a send error when the channel is closed, and the expect
call turns the error into a panic. -/
inductive SendOutcome
  | sent
  | panicked
deriving DecidableEq

/-- Embeds Engine::send (src/engine.rs lines 80-82); the argument is the
channel send result, none meaning the writer side is closed. -/
def sendModel : Option Unit → SendOutcome
  | some _ => SendOutcome.sent
  | none => SendOutcome.panicked

/-- The keywords the parse_info scan recognizes. -/
def recognizedKeywords : List String :=
  ["depth", "seldepth", "multipv", "score", "wdl", "nodes", "nps",
   "hashfull", "tbhits", "time", "pv"]

/-- Whether a Search event is an Info event. -/
def isInfoEv : Search → Bool
  | Search.Info _ => true
  | Search.BestMove _ => false

/-- The default Info record with only the depth field set. -/
def infoDepth (n : Nat) : Info :=
  { Info.default with depth := n }

/-- Claim C7: the spec's first concrete test line decodes to the Info
record with depth 12, seldepth 18, multipv 1, score Cp 34, nodes 100000,
nps 500000, hashfull 10, tbhits 0, time 200 and pv ["e2e4", "e7e5"], and
the second test line decodes with score Mate 3 (and its other stated
fields). -/
theorem c7_theorem :
    parse_info "info depth 12 seldepth 18 multipv 1 score cp 34 nodes 100000 nps 500000 hashfull 10 tbhits 0 time 200 pv e2e4 e7e5" = Except.ok infoLineA ∧
    parse_info "info depth 5 score mate 3 nodes 10 nps 10 hashfull 1 tbhits 0 time 5" = Except.ok infoLineB ∧
    infoLineA.pv = ["e2e4", "e7e5"] ∧ infoLineB.score = Score.Mate 3 :=
  ⟨by rfl, by rfl, by rfl, by rfl⟩

/-- Claim C9 (confirmed): Go::new has depth 10, no explicit position and
an empty move list; it serializes to exactly the command pair
"position startpos" then "go depth 10"; and for every job with an empty
move list the position command carries no moves suffix. -/
theorem c9_theorem :
    Go.new.depth = 10 ∧ Go.new.position = none ∧ Go.new.moves = [] ∧
    goCommands Go.new = ["position startpos", "go depth 10"] ∧
    (∀ g : Go, g.moves = [] →
      positionCmd g = match g.position with
        | none => "position startpos"
        | some fen => "position fen " ++ fen) := by
  refine ⟨rfl, rfl, rfl, by rfl, ?_⟩
  intro g hm
  rcases g with ⟨pos, mv, d⟩
  simp only at hm
  subst hm
  cases pos <;> rfl

/-- Witness for C9: the moves-suffix clause applied to the default job. -/
theorem c9_witness : positionCmd Go.new = "position startpos" :=
  c9_theorem.2.2.2.2 Go.new rfl

/-- Counterexample for claim C4: the two-token line "bestmove e2e4"
does not decode successfully with an absent ponder move — the code
indexes the fourth token and panics (none); and on a four-token line
whose third token is not "ponder" the fourth token is still taken as the
ponder move. -/
theorem c4_counterexample :
    parse_bestmove "bestmove e2e4" = none ∧
    parse_bestmove "bestmove a2a3 xxxx b2b3" = some { best := "a2a3", ponder := "b2b3" } :=
  ⟨by rfl, by rfl⟩

/-- Claim C4 as amended: for every token list of at least four tokens,
parse_bestmove returns the second token as best and the fourth token as
ponder, regardless of the third token; on fewer than four tokens it
panics (returns none) rather than succeeding without a ponder. -/
theorem c4_theorem :
    (∀ (t0 t1 t2 t3 : String) (rest : List String),
      parseBestmoveTokens (t0 :: t1 :: t2 :: t3 :: rest) = some { best := t1, ponder := t3 }) ∧
    (∀ ts : List String, ts.length < 4 → parseBestmoveTokens ts = none) := by
  constructor
  · intro t0 t1 t2 t3 rest
    simp [parseBestmoveTokens]
  · intro ts h
    match ts with
    | [] => rfl
    | [a] => rfl
    | [a, b] => rfl
    | [a, b, c] => rfl
    | a :: b :: c :: d :: rest => exact absurd h (by simp)

/-- Witness for C4: both clauses of the amended claim at concrete
inputs. -/
theorem c4_witness :
    parseBestmoveTokens ["bestmove", "e2e4"] = none ∧
    parseBestmoveTokens ["bestmove", "g1f3", "ponder", "g8f6"] = some { best := "g1f3", ponder := "g8f6" } :=
  ⟨c4_theorem.2 ["bestmove", "e2e4"] (by decide),
   c4_theorem.1 "bestmove" "g1f3" "ponder" "g8f6" []⟩

/-- Counterexample for claim C1: a job whose line sequence is a
malformed "info depth" line followed by a valid bestmove line delivers
no event at all — the loop stops at the malformed line with a decode
error and the following bestmove line is never consumed, contradicting
that events after the malformed line are still delivered. -/
theorem c1_counterexample :
    goLoop ["info depth x", "bestmove e2e4 ponder e7e5"] =
      ([], ["bestmove e2e4 ponder e7e5"], GoStatus.decodeError) := by
  rfl

/-- Claim C1 as amended: when the go loop meets an "info depth" line
whose decode fails, the question-mark operator ends the whole loop with
that error: no event from any later line is delivered and the job's
stream ends without a BestMove. -/
theorem c1_theorem (l e : String) (rest : List String)
    (h1 : startsWith l "info depth" = true)
    (h2 : parse_info l = Except.error e) :
    goLoop (l :: rest) = ([], rest, GoStatus.decodeError) := by
  simp [goLoop, h1, h2]

/-- Witness for C1: the amended claim at a concrete malformed line. -/
theorem c1_witness :
    goLoop ["info depth z", "bestmove d2d4 ponder d7d5"] =
      ([], ["bestmove d2d4 ponder d7d5"], GoStatus.decodeError) :=
  c1_theorem "info depth z" "bad depth" ["bestmove d2d4 ponder d7d5"] (by rfl) (by rfl)

/-- Counterexample for claim C2: two jobs submitted on one engine both
run — the second is serialized after the first and receives its own
events, instead of failing synchronously with a busy rejection. -/
theorem c2_counterexample :
    runJobs [Go.new, Go.new]
        ["info depth 1", "bestmove a1a2 ponder b1b2", "info depth 2", "bestmove c1c2 ponder d1d2"] =
      [[Search.Info (infoDepth 1), Search.BestMove { best := "a1a2", ponder := "b1b2" }],
       [Search.Info (infoDepth 2), Search.BestMove { best := "c1c2", ponder := "d1d2" }]] := by
  rfl

/-- Claim C2 as amended: Go::execute performs no busy check — a second
job submitted while one is in flight is not rejected; its go task waits
on the engine mutex and then runs over the lines left after the first
job, while the first job's event stream is exactly what it would have
been alone. -/
theorem c2_theorem (j1 j2 : Go) (lines : List String) :
    runJobs [j1, j2] lines = [(goLoop lines).1, (goLoop (goLoop lines).2.1).1] ∧
    (runJobs [j1, j2] lines).head? = (runJobs [j1] lines).head? :=
  ⟨rfl, rfl⟩

/-- Counterexample for claim C3: when the reader or writer queue is
closed, Engine::recv and Engine::send panic through their expect calls
instead of surfacing end-of-stream. -/
theorem c3_counterexample :
    recvModel none = RecvOutcome.panicked ∧ sendModel none = SendOutcome.panicked :=
  ⟨rfl, rfl⟩

/-- Claim C3 as amended: a receive on the line source yields the line
while the channel is open, but a closed channel makes Engine::recv
panic ("reader died") and a closed command sink makes Engine::send
panic ("sender died"); the graceful end-of-stream handling exists only
inside the background reader and writer tasks. -/
theorem c3_theorem :
    (∀ s, recvModel (some s) = RecvOutcome.line s) ∧
    recvModel none = RecvOutcome.panicked ∧
    (∀ u, sendModel (some u) = SendOutcome.sent) ∧
    sendModel none = SendOutcome.panicked :=
  ⟨fun _ => rfl, rfl, fun _ => rfl, rfl⟩

/-- Counterexample for claim C5: isready on a freshly spawned engine
(state Init, no uciok ever observed) sets the state to Ready as soon as
"readyok" arrives, and submitting a job leaves the state unchanged
instead of setting it to Search. -/
theorem c5_counterexample :
    isreadyWait ["readyok"] State.Init = some (State.Ready, []) ∧
    executeState State.Ready = State.Ready :=
  ⟨by rfl, rfl⟩

/-- Claim C5 as amended: the state machine of the code is — isready
sets state to Ready on "readyok" regardless of any handshake; uci never
writes the state; Go::execute (submit) never writes the state, so the
state never becomes Search; the go task sets state to Ready when the
job's bestmove line arrives. -/
theorem c5_theorem :
    (∀ (s : State) (rest : List String),
      isreadyWait ("readyok" :: rest) s = some (State.Ready, rest)) ∧
    (∀ (s : State) (lines : List String) (res : State × List String),
      uciWait lines s = some res → res.1 = s) ∧
    (∀ s : State, executeState s = s) ∧
    (∀ (s : State) (l : String) (rest : List String) (bm : BestMove),
      startsWith l "info depth" = false → startsWith l "bestmove" = true →
      parse_bestmove l = some bm →
      goLoopState s (l :: rest) = State.Ready) := by
  refine ⟨fun s rest => by simp [isreadyWait], ?_, fun s => rfl, ?_⟩
  · intro s lines res h
    induction lines with
    | nil => simp [uciWait] at h
    | cons l rest ih =>
      rw [uciWait] at h
      by_cases hsw : startsWith l "uciok" = true
      · simp [hsw] at h
        rw [← h]
      · simp [hsw] at h
        exact ih h
  · intro s l rest bm h1 h2 h3
    simp [goLoopState, goLoop, h1, h2, h3]

/-- Witness for C5: the bestmove clause of the amended claim at a
concrete line. -/
theorem c5_witness :
    goLoopState State.Init ["bestmove a2a4 ponder a7a5"] = State.Ready :=
  c5_theorem.2.2.2 State.Init "bestmove a2a4 ponder a7a5" []
    { best := "a2a4", ponder := "a7a5" } (by rfl) (by rfl) (by rfl)

/-- Counterexample for claim C6: "score" followed by a token that is
neither "cp" nor "mate" is not a DecodeError — the code only logs it
and the scan continues, so the line decodes successfully. -/
theorem c6_counterexample :
    parse_info "info depth 1 score foo" = Except.ok (infoDepth 1) := by
  rfl

/-- Claim C6 as amended: decoding never fails on a token outside the
recognized keyword set; "score" followed by a token other than
"cp"/"mate" consumes that token and continues without error; only a
missing token after "score", a missing value after "cp"/"mate", or a
value that does not parse as a signed integer is a DecodeError (and
likewise a missing or unparsable value after a numeric keyword such as
"depth"). -/
theorem c6_theorem :
    (∀ (t : String) (rest : List String) (info : Info),
      t ∉ recognizedKeywords → parseInfoTokens (t :: rest) info = parseInfoTokens rest info) ∧
    (∀ (s : String) (rest : List String) (info : Info),
      s ≠ "cp" → s ≠ "mate" → parseInfoTokens ("score" :: s :: rest) info = parseInfoTokens rest info) ∧
    (∀ info : Info, parseInfoTokens ["score"] info = Except.error "no score") ∧
    (∀ info : Info, parseInfoTokens ["score", "cp"] info = Except.error "no cp") ∧
    (∀ info : Info, parseInfoTokens ["score", "mate"] info = Except.error "no mate") ∧
    (∀ (v : String) (rest : List String) (info : Info), parseSigned 32 v = none →
      parseInfoTokens ("score" :: "cp" :: v :: rest) info = Except.error "bad cp") ∧
    (∀ (v : String) (rest : List String) (info : Info), parseSigned 32 v = none →
      parseInfoTokens ("score" :: "mate" :: v :: rest) info = Except.error "bad mate") ∧
    (∀ info : Info, parseInfoTokens ["depth"] info = Except.error "no depth") ∧
    (∀ (v : String) (rest : List String) (info : Info), parseUnsigned 32 v = none →
      parseInfoTokens ("depth" :: v :: rest) info = Except.error "bad depth") := by
  refine ⟨?_, ?_, fun info => by rfl, fun info => by rfl, fun info => by rfl, ?_, ?_,
    fun info => by rfl, ?_⟩
  · intro t rest info h
    simp only [recognizedKeywords, List.mem_cons, List.not_mem_nil, or_false, not_or] at h
    obtain ⟨h1, h2, h3, h4, h5, h6, h7, h8, h9, h10, h11⟩ := h
    exact parseInfoTokens.eq_27 info t rest (fun q => h1 q) (fun q => h2 q) (fun q => h3 q)
      (fun q => h4 q) (fun q => h5 q) (fun q => h6 q) (fun q => h7 q) (fun q => h8 q)
      (fun q => h9 q) (fun q => h10 q) (fun q => h11 q)
  · intro s rest info hc hm
    exact parseInfoTokens.eq_13 info s rest (fun q => hc q) (fun q => hm q)
  · intro v rest info h
    simp [parseInfoTokens.eq_10, h]
  · intro v rest info h
    simp [parseInfoTokens.eq_12, h]
  · intro v rest info h
    simp [parseInfoTokens.eq_3, h]

/-- Witness for C6: the amended clauses at concrete inputs — the token
"lowerbound" is skipped, "score foo" is skipped, "score cp x" is a
decode error. -/
theorem c6_witness :
    parseInfoTokens ["lowerbound"] Info.default = parseInfoTokens [] Info.default ∧
    parseInfoTokens ["score", "foo", "depth", "3"] Info.default = parseInfoTokens ["depth", "3"] Info.default ∧
    parseInfoTokens ["score", "cp", "x"] Info.default = Except.error "bad cp" :=
  ⟨c6_theorem.1 "lowerbound" [] Info.default (by decide),
   c6_theorem.2.1 "foo" ["depth", "3"] Info.default (by decide) (by decide),
   c6_theorem.2.2.2.2.2.1 "x" [] Info.default (by rfl)⟩

/-- Counterexample for claim C8: a job whose line source closes after a
single Info line delivers that Info and then ends — no terminal
BestMove is ever delivered, contradicting that every submitted job's
stream is zero or more Info events followed by exactly one BestMove. -/
theorem c8_counterexample :
    goLoop ["info depth 1"] = ([Search.Info (infoDepth 1)], [], GoStatus.closed) := by
  rfl
/-- Claim C8 as amended: whenever the go loop terminates normally the
job's event stream is zero or more Info events followed by exactly one
BestMove, which is the final event; when it ends for any other reason
(closed source, decode error, bestmove panic) the stream holds only
Info events and no BestMove; an exhausted stream stays exhausted. -/
theorem c8_theorem (lines : List String) :
    ((goLoop lines).2.2 = GoStatus.ok →
      ∃ pre bm, (goLoop lines).1 = pre ++ [Search.BestMove bm] ∧ pre.all isInfoEv = true) ∧
    ((goLoop lines).2.2 ≠ GoStatus.ok → (goLoop lines).1.all isInfoEv = true) ∧
    searcherNext [] = (none, []) := by
  have key : ∀ ls : List String,
      ((goLoop ls).2.2 = GoStatus.ok →
        ∃ pre bm, (goLoop ls).1 = pre ++ [Search.BestMove bm] ∧ pre.all isInfoEv = true) ∧
      ((goLoop ls).2.2 ≠ GoStatus.ok → (goLoop ls).1.all isInfoEv = true) := by
    intro ls
    induction ls using goLoop.induct with
    | case1 =>
      constructor
      · intro h
        simp [goLoop] at h
      · intro _
        simp [goLoop]
    | case2 v rest h1 e h2 =>
      constructor
      · intro h
        simp [goLoop, h1, h2] at h
      · intro _
        simp [goLoop, h1, h2]
    | case3 v rest h1 i h2 ih =>
      obtain ⟨ih1, ih2⟩ := ih
      constructor
      · intro h
        simp only [goLoop, h1, h2, if_true] at h ⊢
        obtain ⟨pre, bm, he, hall⟩ := ih1 h
        refine ⟨Search.Info i :: pre, bm, ?_, ?_⟩
        · simp [he]
        · simp [hall, isInfoEv]
      · intro h
        simp only [goLoop, h1, h2, if_true] at h ⊢
        simp [isInfoEv, ih2 h]
    | case4 v rest h1 h2 h3 =>
      constructor
      · intro h
        simp [goLoop, h1, h2, h3] at h
      · intro _
        simp [goLoop, h1, h2, h3]
    | case5 v rest h1 h2 bm h3 =>
      constructor
      · intro _
        refine ⟨[], bm, ?_, rfl⟩
        simp [goLoop, h1, h2, h3]
      · intro h
        exfalso
        apply h
        simp [goLoop, h1, h2, h3]
    | case6 v rest h1 h2 ih =>
      obtain ⟨ih1, ih2⟩ := ih
      constructor
      · intro h
        simp only [goLoop, h1, h2] at h ⊢
        · exact ih1 (by simpa using h)
      · intro h
        simp only [goLoop, h1, h2] at h ⊢
        exact ih2 (by simpa using h)
  exact ⟨(key lines).1, (key lines).2, rfl⟩

/-- Witness for C8: the early-termination clause at a stream whose only
line is malformed. -/
theorem c8_witness :
    (goLoop ["info depth x"]).1.all isInfoEv = true :=
  ( c8_theorem ["info depth x"]).2.1 (by decide)

/-- Frame lemma for parse_info: a scan that never sees the token
"depth" leaves the depth field unchanged. -/
theorem parseInfo_frame_depth (ts : List String) (info : Info) :
    ∀ out, parseInfoTokens ts info = Except.ok out → "depth" ∉ ts → out.depth = info.depth := by
  induction ts, info using parseInfoTokens.induct <;> intro out h hmem <;>
    simp_all [parseInfoTokens] <;> subst h <;> rfl

/-- Frame lemma for parse_info, seldepth field. -/
theorem parseInfo_frame_seldepth (ts : List String) (info : Info) :
    ∀ out, parseInfoTokens ts info = Except.ok out → "seldepth" ∉ ts → out.seldepth = info.seldepth := by
  induction ts, info using parseInfoTokens.induct <;> intro out h hmem <;>
    simp_all [parseInfoTokens] <;> subst h <;> rfl

/-- Frame lemma for parse_info, multipv field. -/
theorem parseInfo_frame_multipv (ts : List String) (info : Info) :
    ∀ out, parseInfoTokens ts info = Except.ok out → "multipv" ∉ ts → out.multipv = info.multipv := by
  induction ts, info using parseInfoTokens.induct <;> intro out h hmem <;>
    simp_all [parseInfoTokens] <;> subst h <;> rfl

/-- Frame lemma for parse_info, score field. -/
theorem parseInfo_frame_score (ts : List String) (info : Info) :
    ∀ out, parseInfoTokens ts info = Except.ok out → "score" ∉ ts → out.score = info.score := by
  induction ts, info using parseInfoTokens.induct <;> intro out h hmem <;>
    simp_all [parseInfoTokens] <;> subst h <;> rfl

/-- Frame lemma for parse_info, wdl field. -/
theorem parseInfo_frame_wdl (ts : List String) (info : Info) :
    ∀ out, parseInfoTokens ts info = Except.ok out → "wdl" ∉ ts → out.wdl = info.wdl := by
  induction ts, info using parseInfoTokens.induct <;> intro out h hmem <;>
    simp_all [parseInfoTokens] <;> subst h <;> rfl

/-- Frame lemma for parse_info, nodes field. -/
theorem parseInfo_frame_nodes (ts : List String) (info : Info) :
    ∀ out, parseInfoTokens ts info = Except.ok out → "nodes" ∉ ts → out.nodes = info.nodes := by
  induction ts, info using parseInfoTokens.induct <;> intro out h hmem <;>
    simp_all [parseInfoTokens] <;> subst h <;> rfl

/-- Frame lemma for parse_info, nps field. -/
theorem parseInfo_frame_nps (ts : List String) (info : Info) :
    ∀ out, parseInfoTokens ts info = Except.ok out → "nps" ∉ ts → out.nps = info.nps := by
  induction ts, info using parseInfoTokens.induct <;> intro out h hmem <;>
    simp_all [parseInfoTokens] <;> subst h <;> rfl

/-- Frame lemma for parse_info, hashfull field. -/
theorem parseInfo_frame_hashfull (ts : List String) (info : Info) :
    ∀ out, parseInfoTokens ts info = Except.ok out → "hashfull" ∉ ts → out.hashfull = info.hashfull := by
  induction ts, info using parseInfoTokens.induct <;> intro out h hmem <;>
    simp_all [parseInfoTokens] <;> subst h <;> rfl

/-- Frame lemma for parse_info, tbhits field. -/
theorem parseInfo_frame_tbhits (ts : List String) (info : Info) :
    ∀ out, parseInfoTokens ts info = Except.ok out → "tbhits" ∉ ts → out.tbhits = info.tbhits := by
  induction ts, info using parseInfoTokens.induct <;> intro out h hmem <;>
    simp_all [parseInfoTokens] <;> subst h <;> rfl

/-- Frame lemma for parse_info, time field. -/
theorem parseInfo_frame_time (ts : List String) (info : Info) :
    ∀ out, parseInfoTokens ts info = Except.ok out → "time" ∉ ts → out.time = info.time := by
  induction ts, info using parseInfoTokens.induct <;> intro out h hmem <;>
    simp_all [parseInfoTokens] <;> subst h <;> rfl

/-- Frame lemma for parse_info, pv field. -/
theorem parseInfo_frame_pv (ts : List String) (info : Info) :
    ∀ out, parseInfoTokens ts info = Except.ok out → "pv" ∉ ts → out.pv = info.pv := by
  induction ts, info using parseInfoTokens.induct <;> intro out h hmem <;>
    simp_all [parseInfoTokens] <;> subst h <;> rfl

/-- Claim C10 (confirmed): parse_info starts from the all-default Info
record, so every keyword absent from the line leaves its field at the
default — 0 for the numeric fields, Cp 0 for score, (0,0,0) for wdl and
the empty list for pv. -/
theorem c10_theorem (line : String) (out : Info)
    (h : parse_info line = Except.ok out) :
    ("depth" ∉ splitWS line → out.depth = 0) ∧
    ("seldepth" ∉ splitWS line → out.seldepth = 0) ∧
    ("multipv" ∉ splitWS line → out.multipv = 0) ∧
    ("score" ∉ splitWS line → out.score = Score.Cp 0) ∧
    ("wdl" ∉ splitWS line → out.wdl = (0, 0, 0)) ∧
    ("nodes" ∉ splitWS line → out.nodes = 0) ∧
    ("nps" ∉ splitWS line → out.nps = 0) ∧
    ("hashfull" ∉ splitWS line → out.hashfull = 0) ∧
    ("tbhits" ∉ splitWS line → out.tbhits = 0) ∧
    ("time" ∉ splitWS line → out.time = 0) ∧
    ("pv" ∉ splitWS line → out.pv = []) := by
  have hp : parseInfoTokens (splitWS line) Info.default = Except.ok out := h
  exact ⟨fun hm => parseInfo_frame_depth _ _ out hp hm,
    fun hm => parseInfo_frame_seldepth _ _ out hp hm,
    fun hm => parseInfo_frame_multipv _ _ out hp hm,
    fun hm => parseInfo_frame_score _ _ out hp hm,
    fun hm => parseInfo_frame_wdl _ _ out hp hm,
    fun hm => parseInfo_frame_nodes _ _ out hp hm,
    fun hm => parseInfo_frame_nps _ _ out hp hm,
    fun hm => parseInfo_frame_hashfull _ _ out hp hm,
    fun hm => parseInfo_frame_tbhits _ _ out hp hm,
    fun hm => parseInfo_frame_time _ _ out hp hm,
    fun hm => parseInfo_frame_pv _ _ out hp hm⟩

/-- The default Info record with only the nodes field set, the decode of
"info nodes 7". -/
def infoNodes7 : Info :=
  { Info.default with nodes := 7 }

/-- Witness for C10: the frame statement at the line "info nodes 7",
whose decode leaves depth at 0 and pv empty. -/
theorem c10_witness :
    parse_info "info nodes 7" = Except.ok infoNodes7 ∧
    infoNodes7.depth = 0 ∧ infoNodes7.pv = [] :=
  ⟨by rfl,
   ( c10_theorem "info nodes 7" infoNodes7 (by rfl)).1 (by decide),
   ( c10_theorem "info nodes 7" infoNodes7 (by rfl)).2.2.2.2.2.2.2.2.2.2 (by decide)⟩
